import Mathlib

/-!
Verification development for the ffmepg_videoplayer repository.

The C++ sources are shallowly embedded:
* machine integers (`int`, `int64_t`) become `ℤ` (no overflow is reachable in
  the modelled computations), sizes and pixel coordinates become `ℕ`;
* C `double`/`float` values are modelled as exact rationals `ℚ`; the C cast
  `(int64_t)d` (truncation toward zero) is `cTruncQ`, the C `round` (half away
  from zero) is `cRoundQ`;
* calls into external collaborators (libav, the OS) are modelled by explicit
  environment records carrying the return values of each call site;
* fallible code returns `Bool × State` exactly as the C API returns a success
  flag while mutating the player.
-/

/-- Error codes of `commons.h` (`enum class VideoPlayerErrorCode`); only the
constructors that the embedded routines can produce are listed. -/
inductive VideoPlayerErrorCode where
  | kErrorCode_Success
  | kErrorCode_Invalid_Param

/-- Pixel formats relevant to the player (`AVPixelFormat` restricted to the
cases distinguished by the sources: RGBA, BGRA, anything else). -/
inductive PixFmt where
  | rgba
  | bgra
  | other

/-- `VideoFrameFormat` of `videoplayer_c_api.h` (the source spells `UNKNWON`). -/
inductive VideoFrameFormat where
  | unknwon
  | rgba
  | bgra

/-- The C cast `(int64_t)q` on a real value: truncation toward zero.  On a
reduced rational this is T-division of the numerator by the denominator. -/
def cTruncQ (q : ℚ) : ℤ := Int.tdiv q.num q.den

/-- C `round(q)` (`math.h`): round to nearest, halfway away from zero. -/
def cRoundQ (q : ℚ) : ℤ :=
  if 0 ≤ q then cTruncQ (q + mkRat 1 2) else - cTruncQ (mkRat 1 2 - q)

/-- `std::clamp(v, lo, hi)`: `v < lo → lo`, `hi < v → hi`, else `v`. -/
def cClamp (v lo hi : ℚ) : ℚ := if v < lo then lo else if hi < v then hi else v

theorem cTruncQ_eq_floor (q : ℚ) (h : 0 ≤ q) : cTruncQ q = ⌊q⌋ := by
  rw [Rat.floor_def, cTruncQ, Int.tdiv_eq_ediv (Rat.num_nonneg.2 h) (Int.natCast_nonneg _)]

theorem mkRat_one_two_eq : (mkRat 1 2 : ℚ) = 1 / 2 := by
  norm_num [Rat.mkRat_eq_div]

/-- For a nonnegative real duration, C rounding exceeds C truncation by 0 or 1. -/
theorem cRoundQ_trunc_gap (q : ℚ) (h : 0 ≤ q) :
    cTruncQ q ≤ cRoundQ q ∧ cRoundQ q ≤ cTruncQ q + 1 := by
  have hhalf : (0:ℚ) ≤ q + mkRat 1 2 := by rw [mkRat_one_two_eq]; linarith
  rw [cRoundQ, if_pos h, cTruncQ_eq_floor q h, cTruncQ_eq_floor _ hhalf, mkRat_one_two_eq]
  constructor
  · exact Int.floor_le_floor (by linarith)
  · have : ⌊q + 1/2⌋ ≤ ⌊q + 1⌋ := Int.floor_le_floor (by linarith)
    simpa [Int.floor_add_one] using this

theorem cClamp_idem (v : ℚ) : cClamp (cClamp v 0 1) 0 1 = cClamp v 0 1 := by
  unfold cClamp
  split_ifs <;> first | rfl | linarith

/-! ## `CopyRgbaDataRotated` (commons.cpp, lines 149-193)

A decoded frame is modelled at pixel granularity: the C code reads the 4-byte
RGBA group at `src + y*srcStride + x*channels` and `memcpy`s it to
`distBuffer + (dstY*outWidth + dstX)*channels`; one `ℕ` value stands for one
such 4-byte group, and `stridePx` is the line size expressed in pixels. -/

/-- An `AVFrame` as consumed by `CopyRgbaDataRotated`: `hasData` models
`frame->data[0] != nullptr`, `data` the flat pixel buffer. -/
structure CFrame where
  hasData : Bool
  width : ℕ
  height : ℕ
  stridePx : ℕ
  data : ℕ → ℕ

/-- The source pixel `src + y * srcStride + x * channels` of the C loop. -/
def pixelAt (f : CFrame) (x y : ℕ) : ℕ := f.data (y * f.stridePx + x)

/-- One store into the destination buffer (the `memcpy` of one pixel). -/
def writePx (buf : ℕ → ℕ) (i v : ℕ) : ℕ → ℕ := fun j => if j = i then v else buf j

/-- The `switch (rotate)` of `CopyRgbaDataRotated`: destination coordinates of
source pixel `(x, y)`, or `none` for the `default:` (invalid-parameter) case. -/
def rotateDst (srcWidth srcHeight : ℕ) (rotate : ℤ) (x y : ℕ) : Option (ℕ × ℕ) :=
  if rotate = 0 then some (x, y)
  else if rotate = 90 then some (srcHeight - 1 - y, x)
  else if rotate = 180 then some (srcWidth - 1 - x, srcHeight - 1 - y)
  else if rotate = 270 then some (y, srcWidth - 1 - x)
  else none

/-- Body of the inner loop: compute the destination position and copy one
pixel, or fail (the early `return kErrorCode_Invalid_Param`). -/
def copyPixel (f : CFrame) (outWidth : ℕ) (rotate : ℤ) (x y : ℕ) (buf : ℕ → ℕ) :
    Option (ℕ → ℕ) :=
  match rotateDst f.width f.height rotate x y with
  | none => none
  | some (dstX, dstY) => some (writePx buf (dstY * outWidth + dstX) (pixelAt f x y))

/-- The double loop `for y … for x …` of `CopyRgbaDataRotated`, with the early
return modelled by the `Option` monad. -/
def copyAllPixels (f : CFrame) (outWidth : ℕ) (rotate : ℤ) (buf : ℕ → ℕ) :
    Option (ℕ → ℕ) :=
  (List.range f.height).foldlM
    (fun b y => (List.range f.width).foldlM (fun b x => copyPixel f outWidth rotate x y b) b)
    buf

/-- `CopyRgbaDataRotated(frame, distBuffer, outWidth, outHeight, rotate)` of
commons.cpp.  `distNull` models a null `distBuffer`; the returned function is
the destination buffer after the call (unchanged whenever the code returns
before copying).  `outHeight` is accepted and ignored exactly as in the C. -/
def CopyRgbaDataRotated (f : CFrame) (distNull : Bool) (dist : ℕ → ℕ)
    (outWidth outHeight : ℕ) (rotate : ℤ) : VideoPlayerErrorCode × (ℕ → ℕ) :=
  if ¬f.hasData ∨ distNull then (.kErrorCode_Invalid_Param, dist)
  else
    match copyAllPixels f outWidth rotate dist with
    | none => (.kErrorCode_Invalid_Param, dist)
    | some b => (.kErrorCode_Success, b)

/-- The rotation metadata the player attaches to an outgoing frame
(video_player.cpp, `processDecodedVideoFrame` lines 171-172):
`rotate = 0 - videoRotation; rotate = rotate >= 0 ? rotate : 360 + rotate`. -/
def playerRotate (videoRotation : ℤ) : ℤ :=
  let rotate := 0 - videoRotation
  if rotate ≥ 0 then rotate else 360 + rotate

/-! ### Pure characterization of the copy loop -/

/-- One row of writes (`for x`), as a pure fold. -/
def writeRow (gI : ℕ → ℕ) (v : ℕ → ℕ) (w : ℕ) (buf : ℕ → ℕ) : ℕ → ℕ :=
  (List.range w).foldl (fun b x => writePx b (gI x) (v x)) buf

/-- The whole grid of writes (`for y for x`), as a pure fold. -/
def writeGrid (gI : ℕ → ℕ → ℕ) (v : ℕ → ℕ → ℕ) (w h : ℕ) (buf : ℕ → ℕ) : ℕ → ℕ :=
  (List.range h).foldl (fun b y => writeRow (fun x => gI x y) (fun x => v x y) w b) buf

theorem foldlM_option_total {α β : Type} (step : β → α → Option β) (g : β → α → β)
    (hs : ∀ b a, step b a = some (g b a)) :
    ∀ (l : List α) (b : β), l.foldlM step b = some (l.foldl g b) := by
  intro l
  induction l with
  | nil => intro b; rfl
  | cons a l ih => intro b; simp [List.foldlM_cons, hs, ih]

theorem writeRow_apply_ne (gI v : ℕ → ℕ) (w : ℕ) (buf : ℕ → ℕ) (i : ℕ)
    (h : ∀ x, x < w → gI x ≠ i) : writeRow gI v w buf i = buf i := by
  induction w with
  | zero => rfl
  | succ w ih =>
      rw [writeRow, List.range_succ, List.foldl_append]
      show writePx (writeRow gI v w buf) (gI w) (v w) i = buf i
      have hne : i ≠ gI w := fun he => h w (Nat.lt_succ_self w) he.symm
      simp only [writePx]
      rw [if_neg hne]
      exact ih fun x hx => h x (Nat.lt_succ_of_lt hx)

theorem writeRow_apply_eq (gI v : ℕ → ℕ) (w : ℕ) (buf : ℕ → ℕ) (x0 : ℕ) (hx : x0 < w)
    (hinj : ∀ x, x < w → gI x = gI x0 → x = x0) :
    writeRow gI v w buf (gI x0) = v x0 := by
  induction w with
  | zero => exact absurd hx (Nat.not_lt_zero x0)
  | succ w ih =>
      rw [writeRow, List.range_succ, List.foldl_append]
      show writePx (writeRow gI v w buf) (gI w) (v w) (gI x0) = v x0
      rcases Nat.lt_succ_iff_lt_or_eq.1 hx with hx' | rfl
      · have hne : gI x0 ≠ gI w := fun he =>
          Nat.lt_irrefl w (((hinj w (Nat.lt_succ_self w)) he.symm) ▸ hx')
        simp only [writePx]
        rw [if_neg hne]
        exact ih hx' fun x hxw => hinj x (Nat.lt_succ_of_lt hxw)
      · simp [writePx]

theorem writeGrid_apply (gI : ℕ → ℕ → ℕ) (v : ℕ → ℕ → ℕ) (w h : ℕ) (buf : ℕ → ℕ)
    (x0 y0 : ℕ) (hx : x0 < w) (hy : y0 < h)
    (hinj : ∀ x y, x < w → y < h → gI x y = gI x0 y0 → x = x0 ∧ y = y0) :
    writeGrid gI v w h buf (gI x0 y0) = v x0 y0 := by
  induction h with
  | zero => exact absurd hy (Nat.not_lt_zero y0)
  | succ h ih =>
      rw [writeGrid, List.range_succ, List.foldl_append]
      show writeRow (fun x => gI x h) (fun x => v x h) w
        (writeGrid gI v w h buf) (gI x0 y0) = v x0 y0
      rcases Nat.lt_succ_iff_lt_or_eq.1 hy with hy' | rfl
      · have hrow : ∀ x, x < w → gI x h ≠ gI x0 y0 := by
          intro x hxw he
          exact Nat.lt_irrefl h ((hinj x h hxw (Nat.lt_succ_self h) he).2 ▸ hy')
        rw [writeRow_apply_ne _ _ _ _ _ hrow]
        exact ih hy' fun x y hxw hyh he =>
          hinj x y hxw (Nat.lt_succ_of_lt hyh) he
      · exact writeRow_apply_eq _ _ w _ x0 hx fun x hxw he =>
          (hinj x y0 hxw (Nat.lt_succ_self y0) he).1

theorem mul_add_lt_inj {K a b c d : ℕ} (hb : b < K) (hd : d < K)
    (h : a * K + b = c * K + d) : a = c ∧ b = d := by
  have hK : 0 < K := Nat.pos_of_ne_zero fun h0 => by omega
  have hmod : b = d := by
    have h1 : (a * K + b) % K = b := by
      rw [Nat.mul_comm a K, Nat.mul_add_mod]; exact Nat.mod_eq_of_lt hb
    have h2 : (c * K + d) % K = d := by
      rw [Nat.mul_comm c K, Nat.mul_add_mod]; exact Nat.mod_eq_of_lt hd
    rw [← h1, h, h2]
  refine ⟨?_, hmod⟩
  subst hmod
  have := Nat.add_right_cancel h
  exact Nat.eq_of_mul_eq_mul_right hK this

theorem copyPixel_rot0 (f : CFrame) (outW : ℕ) (x y : ℕ) (buf : ℕ → ℕ) :
    copyPixel f outW 0 x y buf = some (writePx buf (y * outW + x) (pixelAt f x y)) := by
  simp [copyPixel, rotateDst]

theorem copyPixel_rot90 (f : CFrame) (outW : ℕ) (x y : ℕ) (buf : ℕ → ℕ) :
    copyPixel f outW 90 x y buf =
      some (writePx buf (x * outW + (f.height - 1 - y)) (pixelAt f x y)) := by
  simp [copyPixel, rotateDst]

theorem copyPixel_rot180 (f : CFrame) (outW : ℕ) (x y : ℕ) (buf : ℕ → ℕ) :
    copyPixel f outW 180 x y buf =
      some (writePx buf ((f.height - 1 - y) * outW + (f.width - 1 - x)) (pixelAt f x y)) := by
  simp [copyPixel, rotateDst]

theorem copyPixel_rot270 (f : CFrame) (outW : ℕ) (x y : ℕ) (buf : ℕ → ℕ) :
    copyPixel f outW 270 x y buf =
      some (writePx buf ((f.width - 1 - x) * outW + y) (pixelAt f x y)) := by
  simp [copyPixel, rotateDst]

theorem copyAllPixels_rot0 (f : CFrame) (outW : ℕ) (buf : ℕ → ℕ) :
    copyAllPixels f outW 0 buf =
      some (writeGrid (fun x y => y * outW + x) (fun x y => pixelAt f x y)
        f.width f.height buf) :=
  foldlM_option_total _ _
    (fun b y => foldlM_option_total _ _ (fun b' x => copyPixel_rot0 f outW x y b') _ b)
    _ buf

theorem copyAllPixels_rot90 (f : CFrame) (outW : ℕ) (buf : ℕ → ℕ) :
    copyAllPixels f outW 90 buf =
      some (writeGrid (fun x y => x * outW + (f.height - 1 - y)) (fun x y => pixelAt f x y)
        f.width f.height buf) :=
  foldlM_option_total _ _
    (fun b y => foldlM_option_total _ _ (fun b' x => copyPixel_rot90 f outW x y b') _ b)
    _ buf

theorem copyAllPixels_rot180 (f : CFrame) (outW : ℕ) (buf : ℕ → ℕ) :
    copyAllPixels f outW 180 buf =
      some (writeGrid (fun x y => (f.height - 1 - y) * outW + (f.width - 1 - x))
        (fun x y => pixelAt f x y) f.width f.height buf) :=
  foldlM_option_total _ _
    (fun b y => foldlM_option_total _ _ (fun b' x => copyPixel_rot180 f outW x y b') _ b)
    _ buf

theorem copyAllPixels_rot270 (f : CFrame) (outW : ℕ) (buf : ℕ → ℕ) :
    copyAllPixels f outW 270 buf =
      some (writeGrid (fun x y => (f.width - 1 - x) * outW + y) (fun x y => pixelAt f x y)
        f.width f.height buf) :=
  foldlM_option_total _ _
    (fun b y => foldlM_option_total _ _ (fun b' x => copyPixel_rot270 f outW x y b') _ b)
    _ buf

/-- Lookup in the destination after a rotate-0 copy with `outWidth = width`. -/
theorem writeGrid_rot0_apply (f : CFrame) (buf : ℕ → ℕ) (x y : ℕ)
    (hx : x < f.width) (hy : y < f.height) :
    writeGrid (fun x y => y * f.width + x) (fun x y => pixelAt f x y)
      f.width f.height buf (y * f.width + x) = pixelAt f x y := by
  exact writeGrid_apply _ _ _ _ buf x y hx hy fun a b ha hb he => by
    have := mul_add_lt_inj ha hx he
    exact ⟨this.2, this.1⟩

/-- Lookup in the destination after a rotate-90 copy with `outWidth = height`. -/
theorem writeGrid_rot90_apply (f : CFrame) (buf : ℕ → ℕ) (x y : ℕ)
    (hx : x < f.width) (hy : y < f.height) :
    writeGrid (fun x y => x * f.height + (f.height - 1 - y)) (fun x y => pixelAt f x y)
      f.width f.height buf (x * f.height + (f.height - 1 - y)) = pixelAt f x y := by
  exact writeGrid_apply _ _ _ _ buf x y hx hy fun a b ha hb he => by
    have h1 : f.height - 1 - b < f.height := by omega
    have h2 : f.height - 1 - y < f.height := by omega
    have := mul_add_lt_inj h1 h2 he
    exact ⟨this.1, by omega⟩

/-- Lookup in the destination after a rotate-180 copy with `outWidth = width`. -/
theorem writeGrid_rot180_apply (f : CFrame) (buf : ℕ → ℕ) (x y : ℕ)
    (hx : x < f.width) (hy : y < f.height) :
    writeGrid (fun x y => (f.height - 1 - y) * f.width + (f.width - 1 - x))
      (fun x y => pixelAt f x y) f.width f.height buf
      ((f.height - 1 - y) * f.width + (f.width - 1 - x)) = pixelAt f x y := by
  exact writeGrid_apply _ _ _ _ buf x y hx hy fun a b ha hb he => by
    have h1 : f.width - 1 - a < f.width := by omega
    have h2 : f.width - 1 - x < f.width := by omega
    have := mul_add_lt_inj h1 h2 he
    exact ⟨by omega, by omega⟩

/-- Lookup in the destination after a rotate-270 copy with `outWidth = height`. -/
theorem writeGrid_rot270_apply (f : CFrame) (buf : ℕ → ℕ) (x y : ℕ)
    (hx : x < f.width) (hy : y < f.height) :
    writeGrid (fun x y => (f.width - 1 - x) * f.height + y) (fun x y => pixelAt f x y)
      f.width f.height buf ((f.width - 1 - x) * f.height + y) = pixelAt f x y := by
  exact writeGrid_apply _ _ _ _ buf x y hx hy fun a b ha hb he => by
    have := mul_add_lt_inj hb hy he
    exact ⟨by omega, this.2⟩

theorem copyAllPixels_invalid (f : CFrame) (outW : ℕ) (rotate : ℤ) (buf : ℕ → ℕ)
    (h1 : rotate ≠ 0) (h2 : rotate ≠ 90) (h3 : rotate ≠ 180) (h4 : rotate ≠ 270)
    (hw : 0 < f.width) (hh : 0 < f.height) :
    copyAllPixels f outW rotate buf = none := by
  have hpix : ∀ x y b, copyPixel f outW rotate x y b = (none : Option (ℕ → ℕ)) := by
    intro x y b
    simp [copyPixel, rotateDst, h1, h2, h3, h4]
  obtain ⟨n, hn⟩ : ∃ n, f.height = n + 1 := ⟨f.height - 1, by omega⟩
  obtain ⟨m, hm⟩ : ∃ m, f.width = m + 1 := ⟨f.width - 1, by omega⟩
  unfold copyAllPixels
  rw [hn, hm]
  simp [List.range_succ_eq_map, List.foldlM_cons, hpix]

/-- The frame constructed at the top of `processDecodedVideoFrame`'s pipeline:
an upright tightly-packed image (`stridePx = width`, valid data pointer). -/
def upFrame (w h : ℕ) (data : ℕ → ℕ) : CFrame := ⟨true, w, h, w, data⟩

/-- Width of the image obtained by rotating a `w × h` image by `r` degrees. -/
def rotatedWidth (w h : ℕ) (r : ℤ) : ℕ := if r = 90 ∨ r = 270 then h else w

/-- Height of the image obtained by rotating a `w × h` image by `r` degrees. -/
def rotatedHeight (w h : ℕ) (r : ℤ) : ℕ := if r = 90 ∨ r = 270 then w else h


theorem CopyRgbaDataRotated_some (f : CFrame) (dist : ℕ → ℕ) (outW outH : ℕ)
    (rotate : ℤ) (hd : f.hasData = true) (b : ℕ → ℕ)
    (hc : copyAllPixels f outW rotate dist = some b) :
    CopyRgbaDataRotated f false dist outW outH rotate = (.kErrorCode_Success, b) := by
  rw [CopyRgbaDataRotated, hc]
  simp [hd]

/-- C7: for a stream rotation `r ∈ {0, 90, 180, 270}`, rotating an upright
image by `r` (the physical orientation of the decoded buffer) and then copying
it with `CopyRgbaDataRotated` at the angle the player computes in
`processDecodedVideoFrame` (`playerRotate r = normalize360(-r)`) reproduces the
original upright pixel arrangement: both copies succeed and every pixel `(x,y)`
of the final buffer equals the corresponding pixel of the original image. -/
theorem rotation_round_trip (r : ℤ) (hr : r = 0 ∨ r = 90 ∨ r = 180 ∨ r = 270)
    (w h : ℕ) (data buf1 buf2 : ℕ → ℕ) (x y : ℕ) (hx : x < w) (hy : y < h) :
    (CopyRgbaDataRotated (upFrame w h data) false buf1
        (rotatedWidth w h r) (rotatedHeight w h r) r).1 = .kErrorCode_Success ∧
    (CopyRgbaDataRotated
        (upFrame (rotatedWidth w h r) (rotatedHeight w h r)
          ((CopyRgbaDataRotated (upFrame w h data) false buf1
            (rotatedWidth w h r) (rotatedHeight w h r) r).2))
        false buf2 w h (playerRotate r)).1 = .kErrorCode_Success ∧
    (CopyRgbaDataRotated
        (upFrame (rotatedWidth w h r) (rotatedHeight w h r)
          ((CopyRgbaDataRotated (upFrame w h data) false buf1
            (rotatedWidth w h r) (rotatedHeight w h r) r).2))
        false buf2 w h (playerRotate r)).2 (y * w + x)
      = pixelAt (upFrame w h data) x y := by
  have ey : h - 1 - (h - 1 - y) = y := by omega
  have ex : w - 1 - (w - 1 - x) = x := by omega
  rcases hr with rfl | rfl | rfl | rfl
  · -- r = 0: both copies are the identity arrangement
    have hpr : playerRotate 0 = 0 := by norm_num [playerRotate]
    have hrw : rotatedWidth w h 0 = w := by simp [rotatedWidth]
    have hrh : rotatedHeight w h 0 = h := by simp [rotatedHeight]
    rw [hpr, hrw, hrh]
    have hfirst : CopyRgbaDataRotated (upFrame w h data) false buf1 w h 0 =
        (.kErrorCode_Success,
          writeGrid (fun a b => b * w + a) (fun a b => pixelAt (upFrame w h data) a b)
            w h buf1) :=
      CopyRgbaDataRotated_some _ _ _ _ _ rfl _ (copyAllPixels_rot0 (upFrame w h data) w buf1)
    rw [hfirst]
    dsimp only
    have hsecond : CopyRgbaDataRotated
        (upFrame w h (writeGrid (fun a b => b * w + a)
          (fun a b => pixelAt (upFrame w h data) a b) w h buf1)) false buf2 w h 0 =
        (.kErrorCode_Success,
          writeGrid (fun a b => b * w + a)
            (fun a b => pixelAt (upFrame w h (writeGrid (fun a b => b * w + a)
              (fun a b => pixelAt (upFrame w h data) a b) w h buf1)) a b) w h buf2) :=
      CopyRgbaDataRotated_some _ _ _ _ _ rfl _ (copyAllPixels_rot0 _ w buf2)
    rw [hsecond]
    refine ⟨rfl, rfl, ?_⟩
    have happ := writeGrid_rot0_apply
      (upFrame w h (writeGrid (fun a b => b * w + a)
        (fun a b => pixelAt (upFrame w h data) a b) w h buf1)) buf2 x y hx hy
    refine happ.trans ?_
    show writeGrid (fun a b => b * w + a) (fun a b => pixelAt (upFrame w h data) a b)
      w h buf1 (y * w + x) = pixelAt (upFrame w h data) x y
    exact writeGrid_rot0_apply (upFrame w h data) buf1 x y hx hy
  · -- r = 90: copy at 90 then at playerRotate 90 = 270
    have hpr : playerRotate 90 = 270 := by norm_num [playerRotate]
    have hrw : rotatedWidth w h 90 = h := by simp [rotatedWidth]
    have hrh : rotatedHeight w h 90 = w := by simp [rotatedHeight]
    rw [hpr, hrw, hrh]
    have hfirst : CopyRgbaDataRotated (upFrame w h data) false buf1 h w 90 =
        (.kErrorCode_Success,
          writeGrid (fun a b => a * h + (h - 1 - b))
            (fun a b => pixelAt (upFrame w h data) a b) w h buf1) :=
      CopyRgbaDataRotated_some _ _ _ _ _ rfl _ (copyAllPixels_rot90 (upFrame w h data) h buf1)
    rw [hfirst]
    dsimp only
    have hsecond : CopyRgbaDataRotated
        (upFrame h w (writeGrid (fun a b => a * h + (h - 1 - b))
          (fun a b => pixelAt (upFrame w h data) a b) w h buf1)) false buf2 w h 270 =
        (.kErrorCode_Success,
          writeGrid (fun a b => (h - 1 - a) * w + b)
            (fun a b => pixelAt (upFrame h w (writeGrid (fun a b => a * h + (h - 1 - b))
              (fun a b => pixelAt (upFrame w h data) a b) w h buf1)) a b) h w buf2) :=
      CopyRgbaDataRotated_some _ _ _ _ _ rfl _ (copyAllPixels_rot270 _ w buf2)
    rw [hsecond]
    refine ⟨rfl, rfl, ?_⟩
    have hidx : y * w + x = (h - 1 - (h - 1 - y)) * w + x := by rw [ey]
    rw [hidx]
    have happ := writeGrid_rot270_apply
      (upFrame h w (writeGrid (fun a b => a * h + (h - 1 - b))
        (fun a b => pixelAt (upFrame w h data) a b) w h buf1)) buf2 (h - 1 - y) x
      (by show h - 1 - y < h; omega) (by show x < w; exact hx)
    refine happ.trans ?_
    show writeGrid (fun a b => a * h + (h - 1 - b)) (fun a b => pixelAt (upFrame w h data) a b)
      w h buf1 (x * h + (h - 1 - y)) = pixelAt (upFrame w h data) x y
    exact writeGrid_rot90_apply (upFrame w h data) buf1 x y hx hy
  · -- r = 180: copy at 180 twice
    have hpr : playerRotate 180 = 180 := by norm_num [playerRotate]
    have hrw : rotatedWidth w h 180 = w := by simp [rotatedWidth]
    have hrh : rotatedHeight w h 180 = h := by simp [rotatedHeight]
    rw [hpr, hrw, hrh]
    have hfirst : CopyRgbaDataRotated (upFrame w h data) false buf1 w h 180 =
        (.kErrorCode_Success,
          writeGrid (fun a b => (h - 1 - b) * w + (w - 1 - a))
            (fun a b => pixelAt (upFrame w h data) a b) w h buf1) :=
      CopyRgbaDataRotated_some _ _ _ _ _ rfl _ (copyAllPixels_rot180 (upFrame w h data) w buf1)
    rw [hfirst]
    dsimp only
    have hsecond : CopyRgbaDataRotated
        (upFrame w h (writeGrid (fun a b => (h - 1 - b) * w + (w - 1 - a))
          (fun a b => pixelAt (upFrame w h data) a b) w h buf1)) false buf2 w h 180 =
        (.kErrorCode_Success,
          writeGrid (fun a b => (h - 1 - b) * w + (w - 1 - a))
            (fun a b => pixelAt (upFrame w h (writeGrid (fun a b => (h - 1 - b) * w + (w - 1 - a))
              (fun a b => pixelAt (upFrame w h data) a b) w h buf1)) a b) w h buf2) :=
      CopyRgbaDataRotated_some _ _ _ _ _ rfl _ (copyAllPixels_rot180 _ w buf2)
    rw [hsecond]
    refine ⟨rfl, rfl, ?_⟩
    have hidx : y * w + x = (h - 1 - (h - 1 - y)) * w + (w - 1 - (w - 1 - x)) := by
      rw [ey, ex]
    rw [hidx]
    have happ := writeGrid_rot180_apply
      (upFrame w h (writeGrid (fun a b => (h - 1 - b) * w + (w - 1 - a))
        (fun a b => pixelAt (upFrame w h data) a b) w h buf1)) buf2 (w - 1 - x) (h - 1 - y)
      (by show w - 1 - x < w; omega) (by show h - 1 - y < h; omega)
    refine happ.trans ?_
    show writeGrid (fun a b => (h - 1 - b) * w + (w - 1 - a))
      (fun a b => pixelAt (upFrame w h data) a b) w h buf1
      ((h - 1 - y) * w + (w - 1 - x)) = pixelAt (upFrame w h data) x y
    exact writeGrid_rot180_apply (upFrame w h data) buf1 x y hx hy
  · -- r = 270: copy at 270 then at playerRotate 270 = 90
    have hpr : playerRotate 270 = 90 := by norm_num [playerRotate]
    have hrw : rotatedWidth w h 270 = h := by simp [rotatedWidth]
    have hrh : rotatedHeight w h 270 = w := by simp [rotatedHeight]
    rw [hpr, hrw, hrh]
    have hfirst : CopyRgbaDataRotated (upFrame w h data) false buf1 h w 270 =
        (.kErrorCode_Success,
          writeGrid (fun a b => (w - 1 - a) * h + b)
            (fun a b => pixelAt (upFrame w h data) a b) w h buf1) :=
      CopyRgbaDataRotated_some _ _ _ _ _ rfl _ (copyAllPixels_rot270 (upFrame w h data) h buf1)
    rw [hfirst]
    dsimp only
    have hsecond : CopyRgbaDataRotated
        (upFrame h w (writeGrid (fun a b => (w - 1 - a) * h + b)
          (fun a b => pixelAt (upFrame w h data) a b) w h buf1)) false buf2 w h 90 =
        (.kErrorCode_Success,
          writeGrid (fun a b => a * w + (w - 1 - b))
            (fun a b => pixelAt (upFrame h w (writeGrid (fun a b => (w - 1 - a) * h + b)
              (fun a b => pixelAt (upFrame w h data) a b) w h buf1)) a b) h w buf2) :=
      CopyRgbaDataRotated_some _ _ _ _ _ rfl _ (copyAllPixels_rot90 _ w buf2)
    rw [hsecond]
    refine ⟨rfl, rfl, ?_⟩
    have hidx : y * w + x = y * w + (w - 1 - (w - 1 - x)) := by rw [ex]
    rw [hidx]
    have happ := writeGrid_rot90_apply
      (upFrame h w (writeGrid (fun a b => (w - 1 - a) * h + b)
        (fun a b => pixelAt (upFrame w h data) a b) w h buf1)) buf2 y (w - 1 - x)
      (by show y < h; exact hy) (by show w - 1 - x < w; omega)
    refine happ.trans ?_
    show writeGrid (fun a b => (w - 1 - a) * h + b) (fun a b => pixelAt (upFrame w h data) a b)
      w h buf1 ((w - 1 - x) * h + y) = pixelAt (upFrame w h data) x y
    exact writeGrid_rot270_apply (upFrame w h data) buf1 x y hx hy

/-- Witness for `rotation_round_trip`: concrete 2×3 image, stream rotation 90. -/
theorem rotation_round_trip_witness :
    ((90:ℤ) = 0 ∨ (90:ℤ) = 90 ∨ (90:ℤ) = 180 ∨ (90:ℤ) = 270) ∧
    ((CopyRgbaDataRotated (upFrame 2 3 (fun i => i)) false (fun _ => 0)
        (rotatedWidth 2 3 90) (rotatedHeight 2 3 90) 90).1 = .kErrorCode_Success ∧
    (CopyRgbaDataRotated
        (upFrame (rotatedWidth 2 3 90) (rotatedHeight 2 3 90)
          ((CopyRgbaDataRotated (upFrame 2 3 (fun i => i)) false (fun _ => 0)
            (rotatedWidth 2 3 90) (rotatedHeight 2 3 90) 90).2))
        false (fun _ => 0) 2 3 (playerRotate 90)).1 = .kErrorCode_Success ∧
    (CopyRgbaDataRotated
        (upFrame (rotatedWidth 2 3 90) (rotatedHeight 2 3 90)
          ((CopyRgbaDataRotated (upFrame 2 3 (fun i => i)) false (fun _ => 0)
            (rotatedWidth 2 3 90) (rotatedHeight 2 3 90) 90).2))
        false (fun _ => 0) 2 3 (playerRotate 90)).2 (2 * 2 + 1)
      = pixelAt (upFrame 2 3 (fun i => i)) 1 2) :=
  ⟨Or.inr (Or.inl rfl),
   rotation_round_trip 90 (Or.inr (Or.inl rfl)) 2 3 (fun i => i) (fun _ => 0) (fun _ => 0)
     1 2 (by decide) (by decide)⟩

/-- C8 (amended): on a frame with a valid data pointer and at least one pixel,
`CopyRgbaDataRotated` succeeds exactly on the four normalized angles and
returns the invalid-parameter fault, leaving the destination untouched, on any
other angle.  (A zero-area frame returns success for any angle, because the C
routine only hits the `default:` case inside the pixel loop.) -/
theorem copyRotate_angle_domain (f : CFrame) (dist : ℕ → ℕ) (outW outH : ℕ) (rotate : ℤ)
    (hd : f.hasData = true) (hw : 0 < f.width) (hh : 0 < f.height) :
    ((rotate = 0 ∨ rotate = 90 ∨ rotate = 180 ∨ rotate = 270) →
      (CopyRgbaDataRotated f false dist outW outH rotate).1 = .kErrorCode_Success) ∧
    (rotate ≠ 0 → rotate ≠ 90 → rotate ≠ 180 → rotate ≠ 270 →
      CopyRgbaDataRotated f false dist outW outH rotate
        = (.kErrorCode_Invalid_Param, dist)) := by
  constructor
  · rintro (rfl | rfl | rfl | rfl)
    · rw [CopyRgbaDataRotated_some f dist outW outH 0 hd _ (copyAllPixels_rot0 f outW dist)]
    · rw [CopyRgbaDataRotated_some f dist outW outH 90 hd _ (copyAllPixels_rot90 f outW dist)]
    · rw [CopyRgbaDataRotated_some f dist outW outH 180 hd _ (copyAllPixels_rot180 f outW dist)]
    · rw [CopyRgbaDataRotated_some f dist outW outH 270 hd _ (copyAllPixels_rot270 f outW dist)]
  · intro h1 h2 h3 h4
    rw [CopyRgbaDataRotated, copyAllPixels_invalid f outW rotate dist h1 h2 h3 h4 hw hh]
    simp [hd]

/-- Counterexample to C8 as stated: a frame whose data pointer is valid but
whose pixel area is empty (width 0) makes `CopyRgbaDataRotated` return
success even for the non-normalized angle 45, because the `default:` return
sits inside the per-pixel loop that never runs. -/
theorem copyRotate_invalid_angle_zero_area :
    (CFrame.mk true 0 1 0 (fun _ => 0)).hasData = true ∧
    ((45:ℤ) ≠ 0 ∧ (45:ℤ) ≠ 90 ∧ (45:ℤ) ≠ 180 ∧ (45:ℤ) ≠ 270) ∧
    (CopyRgbaDataRotated (CFrame.mk true 0 1 0 (fun _ => 0)) false (fun _ => 0) 4 4 45).1
      = .kErrorCode_Success :=
  ⟨rfl, by decide, rfl⟩

/-- Witness for `copyRotate_angle_domain`: concrete 1×1 frame, angles 90 and 45. -/
theorem copyRotate_angle_domain_witness :
    (CopyRgbaDataRotated (CFrame.mk true 1 1 1 (fun _ => 7)) false (fun _ => 0) 1 1 90).1
        = .kErrorCode_Success ∧
    CopyRgbaDataRotated (CFrame.mk true 1 1 1 (fun _ => 7)) false (fun _ => 0) 1 1 45
        = (.kErrorCode_Invalid_Param, fun _ => 0) :=
  ⟨(copyRotate_angle_domain _ _ 1 1 90 rfl (by decide) (by decide)).1 (Or.inr (Or.inl rfl)),
   (copyRotate_angle_domain _ _ 1 1 45 rfl (by decide) (by decide)).2
     (by decide) (by decide) (by decide) (by decide)⟩

/-! ## `VideoFileDescriptorStream` (video_stream.cpp, lines 132-333)

The constructor's probe is a straight-line sequence of `fcntl`/`lseek64`
calls; `FdProbeEnv` records the return value of each call site (negative
means the call failed, as in POSIX). -/

/-- Outcomes of the OS calls made by the `VideoFileDescriptorStream`
constructor, one field per call site in source order. -/
structure FdProbeEnv where
  /-- Result of `fcntl(fd, F_GETFD)`: `true` iff it returned `>= 0`. -/
  fcntlOk : Bool
  /-- `lseek64(fd, 0, SEEK_CUR)` — the original position (2.1). -/
  curPos : ℤ
  /-- `lseek64(fd, 1024, SEEK_CUR)` — the forward-move test (2.2). -/
  fwdPos : ℤ
  /-- `lseek64(fd, original_pos, SEEK_SET)` after a failed forward test. -/
  restoreAfterFwdFail : ℤ
  /-- `lseek64(fd, original_pos, SEEK_SET)` — the backward-move test (2.3). -/
  backPos : ℤ
  /-- `lseek64(fd, 0, SEEK_CUR)` after a failed backward test. -/
  curAfterBackFail : ℤ
  /-- `lseek64(fd, 0, SEEK_END)` — the size probe (2.4). -/
  endPos : ℤ
  /-- `lseek64(fd, original_pos, SEEK_SET)` restoring after the size probe. -/
  finalPos : ℤ
  /-- `lseek64(fd, 0, SEEK_CUR)` after a failed final restore (no-size branch). -/
  curAfterFinalFail : ℤ

/-- State of a `VideoFileDescriptorStream` (fields of the C++ class). -/
structure VideoFileDescriptorStream where
  fd : ℤ
  seekable : Bool
  read_position : ℤ
  file_size : ℤ
  valid : Bool

/-- The `VideoFileDescriptorStream(int)` constructor: member initializers
`file_size(-1), read_position(0), seekable(true), valid(false)` followed by
the probe sequence of video_stream.cpp lines 132-299. -/
def mkVideoFileDescriptorStream (fd : ℤ) (env : FdProbeEnv) : VideoFileDescriptorStream :=
  let s : VideoFileDescriptorStream :=
    { fd := fd, seekable := true, read_position := 0, file_size := -1, valid := false }
  if fd < 0 then s
  else if ¬env.fcntlOk then s
  else
    let s := { s with valid := true }
    if env.curPos < 0 then
      -- cannot even query the position: not seekable, size unknown
      { s with seekable := false, file_size := -1, read_position := 0 }
    else if env.fwdPos < 0 then
      -- forward test failed: not seekable; restore attempt, position recorded
      -- as original_pos in both branches
      { s with seekable := false, read_position := env.curPos }
    else if env.backPos < 0 then
      -- backward test failed: not seekable; re-query the current position
      { s with seekable := false,
               read_position := if 0 ≤ env.curAfterBackFail then env.curAfterBackFail
                 else env.fwdPos }
    else if 0 ≤ env.endPos then
      -- size obtained (2.4); restore the original position
      let s := { s with file_size := env.endPos }
      if 0 ≤ env.finalPos then
        { s with read_position := env.curPos, seekable := true }
      else
        { s with seekable := true, read_position := env.endPos }
    else
      -- size unknown, but the seek tests passed
      if 0 ≤ env.finalPos then
        { s with read_position := env.curPos, seekable := true }
      else
        { s with seekable := true,
                 read_position := if 0 ≤ env.curAfterFinalFail then env.curAfterFinalFail
                   else env.curPos }

/-- `VideoFileDescriptorStream::Seekable()` (video_stream.cpp lines 323-333). -/
def VideoFileDescriptorStream.Seekable (s : VideoFileDescriptorStream) : Bool :=
  if ¬s.valid then false else s.seekable

/-- `VideoFileDescriptorStream::SizeInBytes()` (video_stream.h line 43). -/
def VideoFileDescriptorStream.SizeInBytes (s : VideoFileDescriptorStream) : ℤ :=
  s.file_size

/-- C9: a descriptor whose whole seekability probe succeeds and whose size
probe (`lseek64(fd, 0, SEEK_END)`) reports exactly 0 bytes is still reported
seekable, with `SizeInBytes() = 0`: zero length does not degrade the
capability (the 2.5 block of the constructor only logs a warning). -/
theorem zero_size_descriptor_seekable (fd : ℤ) (env : FdProbeEnv)
    (hfd : 0 ≤ fd) (hfcntl : env.fcntlOk = true) (hcur : 0 ≤ env.curPos)
    (hfwd : 0 ≤ env.fwdPos) (hback : 0 ≤ env.backPos) (hend : env.endPos = 0)
    (hfin : 0 ≤ env.finalPos) :
    (mkVideoFileDescriptorStream fd env).Seekable = true ∧
    (mkVideoFileDescriptorStream fd env).SizeInBytes = 0 := by
  rw [mkVideoFileDescriptorStream]
  rw [if_neg (by omega), if_neg (by simp [hfcntl]), if_neg (by omega), if_neg (by omega),
    if_neg (by omega), if_pos (by omega), if_pos hfin]
  simp [VideoFileDescriptorStream.Seekable, VideoFileDescriptorStream.SizeInBytes, hend]

/-- Witness for `zero_size_descriptor_seekable`: a concrete probe environment. -/
theorem zero_size_descriptor_seekable_witness :
    (mkVideoFileDescriptorStream 5 ⟨true, 0, 1024, -1, 0, -1, 0, 0, -1⟩).Seekable = true ∧
    (mkVideoFileDescriptorStream 5 ⟨true, 0, 1024, -1, 0, -1, 0, 0, -1⟩).SizeInBytes = 0 :=
  zero_size_descriptor_seekable 5 ⟨true, 0, 1024, -1, 0, -1, 0, 0, -1⟩
    (by decide) rfl (by decide) (by decide) (by decide) rfl (by decide)

/-! ## `FFmpegContext` and `VideoInfo` (ffmepg_context.h / ffmepg_context.cpp)

The decode-engine session is modelled by the scalar fields the player reads;
pointer-valued members become presence flags. -/

/-- The fields of `struct FFmpegContext` that the player consults.
`avformatPresent` models `avformatContext != nullptr`, `videoStreamPresent`
models `videoStream != nullptr` (equivalently `fmt->streams[videoStreamIdx]`),
`fmtDuration` is `avformatContext->duration` (AV_TIME_BASE microseconds) and
`streamDuration` is `videoStream->duration` (stream-timebase units). -/
structure FFmpegContext where
  avformatPresent : Bool
  videoCodecPresent : Bool
  audioCodecPresent : Bool
  videoStreamPresent : Bool
  videoStreamIdx : ℤ
  audioStreamIdx : ℤ
  fmtDuration : ℤ
  streamDuration : ℤ
  timebase : ℚ
  durationInStreamTimebase : ℤ
  durationInSeconds : ℚ
  videoRotation : ℤ
  frameRate : ℚ
  totalFrames : ℤ
  actualFrameWidth : ℤ
  actualFrameHeight : ℤ
  decoderFPS : ℚ
  codecparFormat : PixFmt

/-- `struct VideoInfo` of videoplayer_c_api.h (the codec-name character array
is omitted: no modelled claim reads it). -/
structure VideoInfo where
  DurationMills : ℤ
  TotalFrames : ℤ
  VideoWidth : ℤ
  VideoHeight : ℤ
  Fps : ℚ
  Rotation : ℤ
  DecoderFPS : ℚ
  HasAudio : Bool
  PixelFormat : VideoFrameFormat

/-- `FFmpegContext::FillVideoInfo` (ffmepg_context.cpp lines 365-392):
`DurationMills = (int64_t)round(durationInSeconds * 1000)`. -/
def FillVideoInfo (ctx : FFmpegContext) : VideoInfo :=
  { Fps := ctx.frameRate,
    DurationMills := cRoundQ (ctx.durationInSeconds * 1000),
    VideoWidth := ctx.actualFrameWidth,
    VideoHeight := ctx.actualFrameHeight,
    TotalFrames := ctx.totalFrames,
    Rotation := ctx.videoRotation,
    DecoderFPS := ctx.decoderFPS,
    HasAudio := decide (0 ≤ ctx.audioStreamIdx),
    PixelFormat := .unknwon }

/-! ## `VideoPlayer` (video_player.cpp) -/

/-- `struct VideoPlayerOptions` of videoplayer_c_api.h; the two function
pointers are modelled by presence flags (the player only tests them against
null before invoking them). -/
structure VideoPlayerOptions where
  Mute : Bool
  StartMills : ℤ
  FrameScale : ℚ
  hasVideoInfoCallback : Bool
  hasFrameCallback : Bool

/-- `struct FormatConverter` (format_converter.h): the construction-time
state; `distWidth/distHeight = (scale > 0 && scale != 1) ? int(dim * scale) :
dim`. -/
structure FormatConverter where
  srcWidth : ℤ
  srcHeight : ℤ
  distWidth : ℤ
  distHeight : ℤ
  scale : ℚ
  distPixelFormat : PixFmt

/-- The `FormatConverter(width, height, dstFormat, scale)` constructor. -/
def mkFormatConverter (width height : ℤ) (dstFormat : PixFmt) (scale : ℚ) :
    FormatConverter :=
  { srcWidth := width, srcHeight := height,
    distWidth := if 0 < scale ∧ scale ≠ 1 then cTruncQ ((width : ℚ) * scale) else width,
    distHeight := if 0 < scale ∧ scale ≠ 1 then cTruncQ ((height : ℚ) * scale) else height,
    scale := scale, distPixelFormat := dstFormat }

/-- State of a `VideoFileStream` (the `std::ifstream`-backed source). -/
structure VideoFileStream where
  isOpen : Bool
  read_position : ℤ
  file_size : ℤ

/-- The `VideoFileStream(const std::string&)` constructor: `file_size`
initialized to 0, set from `tellg()` at end when the open succeeded. -/
def mkVideoFileStream (openOk : Bool) (endPos : ℤ) : VideoFileStream :=
  if ¬openOk then { isOpen := false, read_position := 0, file_size := 0 }
  else { isOpen := true, read_position := 0,
         file_size := if 0 ≤ endPos then endPos else 0 }

/-- The `IVideoStream` object held in `VideoPlayer::IO`: one of the two
concrete stream classes (closed variant, as in the design). -/
inductive StreamObj where
  | fdStream (s : VideoFileDescriptorStream)
  | fileStream (s : VideoFileStream)

/-- `struct VideoPlayer` of video_player.cpp (shared mutable state).  The C++
members `Context`, `VideoInfo`, `IO`, `Options`, `FormatConverter`,
`CurrentTimeMills`, `IsRunning`, `StartWallClockUS` are kept under the names
`Context`, `videoInfo`, `ioStream`, `Options`, `FormatConverter`,
`CurrentTimeMills`, `IsRunning`, `StartWallClockUS` (two renamed to satisfy
Lean naming constraints). -/
structure VideoPlayer where
  Context : Option FFmpegContext
  videoInfo : Option VideoInfo
  ioStream : Option StreamObj
  Options : VideoPlayerOptions
  FormatConverter : Option FormatConverter
  CurrentTimeMills : ℤ
  IsRunning : Bool
  StartWallClockUS : ℤ

/-- `VideoPlayer::StopAndExtractWorker` (video_player.cpp lines 63-73):
exchanges the running flag to false and hands the joinable worker out; the
first component is `wasRunning && Worker.joinable()` (a thread to join). -/
def StopAndExtractWorker (p : VideoPlayer) : Bool × VideoPlayer :=
  (p.IsRunning, { p with IsRunning := false })

/-- `GetPlayingMills` (video_player.cpp lines 507-510). -/
def GetPlayingMills (p : VideoPlayer) : ℤ := p.CurrentTimeMills

/-- `GetDurationMills` (video_player.cpp lines 512-515):
`(int64_t)(Context->durationInSeconds * 1000)` — truncation. -/
def GetDurationMills (p : VideoPlayer) : ℤ :=
  match p.Context with
  | some ctx => cTruncQ (ctx.durationInSeconds * 1000)
  | none => 0

/-- `IsRunning` of the C API (video_player.cpp lines 502-505). -/
def IsRunning (p : VideoPlayer) : Bool := p.IsRunning

/-- `Pause` (video_player.cpp lines 477-484): stop and join, nothing freed. -/
def Pause (p : VideoPlayer) : VideoPlayer := (StopAndExtractWorker p).2

/-- `Close` (video_player.cpp lines 457-475): stop and join, then release the
converter, metadata, I/O and decode context. -/
def Close (p : VideoPlayer) : VideoPlayer :=
  let p1 := (StopAndExtractWorker p).2
  { p1 with FormatConverter := none, videoInfo := none, ioStream := none, Context := none }

/-- External-call outcomes consumed by `Resume` and `SeekToPercent`:
`now` is `av_gettime()`, `seekRet` the `av_seek_frame` return value. -/
structure SeekEnv where
  now : ℤ
  seekRet : ℤ

/-- `Resume` (video_player.cpp lines 486-500). -/
def Resume (p : VideoPlayer) (env : SeekEnv) : Bool × VideoPlayer :=
  if p.Context.isNone then (false, p)
  else if p.IsRunning then (false, p)
  else (true, { p with StartWallClockUS := env.now - p.CurrentTimeMills * 1000,
                       IsRunning := true })

/-- The duration lookup of `SeekToPercent` (video_player.cpp lines 538-546):
container duration first, then the video stream's own duration rescaled by
`av_rescale_q(d, time_base, AV_TIME_BASE_Q)` (round to nearest, ties away
from zero, as libav's `AV_ROUND_NEAR_INF`). -/
def seekDuration (ctx : FFmpegContext) : ℤ :=
  let duration := ctx.fmtDuration
  if duration ≤ 0 then
    if ctx.videoStreamPresent ∧ 0 < ctx.streamDuration then
      cRoundQ ((ctx.streamDuration : ℚ) * ctx.timebase * 1000000)
    else duration
  else duration

/-- `SeekToPercent` (video_player.cpp lines 518-580). -/
def SeekToPercent (p : VideoPlayer) (percent : ℚ) (env : SeekEnv) : Bool × VideoPlayer :=
  match p.Context with
  | none => (false, p)
  | some ctx =>
    let pc := cClamp percent 0 1
    -- stop worker and join (lines 525-526)
    let p1 := (StopAndExtractWorker p).2
    if ¬ctx.avformatPresent ∨ ctx.videoStreamIdx < 0 then (false, p1)
    else
      let duration := seekDuration ctx
      if duration ≤ 0 then (false, p1)
      else
        let target_us := cTruncQ ((duration : ℚ) * pc)
        -- avcodec_flush_buffers on both codecs mutates no modelled state
        if env.seekRet < 0 then (false, p1)
        else
          let p2 := { p1 with CurrentTimeMills := Int.tdiv target_us 1000,
                              StartWallClockUS := env.now - target_us }
          -- restart worker if needed (lines 571-577)
          let p3 := if ¬p2.IsRunning then { p2 with IsRunning := true } else p2
          (true, p3)

/-- The byte-source argument of `Open`: a string prefixed `fd://` selects the
descriptor stream (`atoi` of the suffix), any other string is a file path. -/
inductive MediaSource where
  | fdSrc (fd : ℤ)
  | fileSrc (path : String)

/-- External-call outcomes consumed by `Open`, one field per call site:
`avio_alloc_context`, `avformat_open_input`, `avformat_find_stream_info`,
and `LoadVideoProperties` (whose success yields the discovered context). -/
structure OpenEnv where
  fdProbe : FdProbeEnv
  fileOpenOk : Bool
  fileEndPos : ℤ
  avioAllocOk : Bool
  openInputRet : ℤ
  findStreamInfoRet : ℤ
  loadProps : Option FFmpegContext

/-- Continuation of `Open` after the IO stream has been installed
(video_player.cpp lines 357-454). -/
def openAfterIo (p : VideoPlayer) (options : VideoPlayerOptions) (env : OpenEnv) :
    Bool × VideoPlayer :=
  if ¬env.avioAllocOk then (false, p)
  else if env.openInputRet ≠ 0 then (false, p)
  else if env.findStreamInfoRet < 0 then (false, p)
  else
    match env.loadProps with
    | none => (false, p)
    | some ctx0 =>
      -- `if (!options.Mute) { … } else ctx->audioStreamIdx = -1;`
      let ctx := if options.Mute then { ctx0 with audioStreamIdx := -1 } else ctx0
      let vi0 := FillVideoInfo ctx
      -- pixel-format adjustment block (lines 412-430)
      let vi :=
        if ctx.videoStreamPresent then
          match ctx.codecparFormat with
          | .bgra => { vi0 with PixelFormat := .bgra }
          | .rgba => { vi0 with PixelFormat := .rgba }
          | .other => { vi0 with PixelFormat := .rgba }
        else vi0
      let dstFmt :=
        if ctx.videoStreamPresent then
          match ctx.codecparFormat with
          | .bgra => PixFmt.bgra
          | .rgba => PixFmt.rgba
          | .other => PixFmt.rgba
        else PixFmt.rgba
      let fc := mkFormatConverter ctx.actualFrameWidth ctx.actualFrameHeight dstFmt
        options.FrameScale
      (true, { p with Context := some ctx, videoInfo := some vi,
                      FormatConverter := some fc, CurrentTimeMills := 0,
                      IsRunning := true })

/-- `Open` (video_player.cpp lines 327-455).  The options snapshot is stored
before the double-open check, exactly as in the source; on success the worker
thread is spawned (`IsRunning := true`) and the state returned is the one the
metadata callback observes. -/
def Open (p : VideoPlayer) (src : MediaSource) (options : VideoPlayerOptions)
    (env : OpenEnv) : Bool × VideoPlayer :=
  let p := { p with Options := options }
  if p.Context.isSome then (false, p)
  else
    match src with
    | .fdSrc fd =>
      if fd < 0 then (false, p)
      else openAfterIo
        { p with ioStream := some (.fdStream (mkVideoFileDescriptorStream fd env.fdProbe)) }
        options env
    | .fileSrc _ =>
      openAfterIo
        { p with ioStream := some (.fileStream (mkVideoFileStream env.fileOpenOk env.fileEndPos)) }
        options env

/-! ## `LoopPlay` pacing baseline (video_player.cpp lines 222-234, 272-282) -/

/-- The baseline computed at the top of `LoopPlay`: `av_gettime() - curMs*1000`
when `CurrentTimeMills > 0`, else the sentinel `-1`. -/
def loopStartBaseline (curMs now : ℤ) : ℤ :=
  if 0 < curMs then now - curMs * 1000 else -1

/-- The baseline as fixed on the first decoded frame: if still the sentinel,
re-derive it from `CurrentTimeMills` (or plain `av_gettime()` when the
position is zero). -/
def firstFrameBaseline (startUs curMs now : ℤ) : ℤ :=
  if startUs < 0 then (if 0 < curMs then now - curMs * 1000 else now) else startUs

/-! ## Claim theorems on the player lifecycle -/

/-- C1 (amended): with an open session whose container and video stream both
fail to report a positive duration, `SeekToPercent` returns false — but the
decode thread was already stopped and joined before the duration check and is
not restarted on this path, so the post-call state is the pre-call state with
the running flag cleared: a previously paused session stays paused, while a
previously running session is left stopped.  All session resources survive. -/
theorem seekToPercent_no_duration (p : VideoPlayer) (ctx : FFmpegContext) (percent : ℚ)
    (env : SeekEnv) (hc : p.Context = some ctx) (hfmt : ctx.avformatPresent = true)
    (hidx : 0 ≤ ctx.videoStreamIdx) (hdur : seekDuration ctx ≤ 0) :
    SeekToPercent p percent env = (false, { p with IsRunning := false }) := by
  simp only [SeekToPercent, hc]
  rw [if_neg (by simp [hfmt]; omega), if_pos hdur]
  simp [StopAndExtractWorker, hc]

/-- Concrete fixtures shared by the player witnesses and counterexamples. -/
def noDurationCtx : FFmpegContext :=
  ⟨true, true, false, true, 0, -1, 0, 0, mkRat 1 1000, 0, 0, 0, 30, 0, 640, 360, 0, .other⟩

/-- A context advertising a 10-second container duration. -/
def tenSecCtx : FFmpegContext :=
  ⟨true, true, false, true, 0, -1, 10000000, 0, mkRat 1 1000, 0, 10, 0, 30, 300, 640, 360, 0, .other⟩

/-- A plausible metadata snapshot for the fixture sessions. -/
def sampleInfo : VideoInfo := ⟨10000, 300, 640, 360, 30, 0, 0, false, .rgba⟩

/-- A plausible converter state for the fixture sessions. -/
def sampleConverter : FormatConverter := ⟨640, 360, 640, 360, 1, .rgba⟩

/-- An open session, positioned at 500 ms, over the given context. -/
def mkSamplePlayer (ctx : FFmpegContext) (running : Bool) : VideoPlayer :=
  ⟨some ctx, some sampleInfo, some (.fileStream (mkVideoFileStream true 4096)),
   ⟨false, 0, 1, true, true⟩, some sampleConverter, 500, running, 0⟩

/-- Witness for `seekToPercent_no_duration` at a concrete running session. -/
theorem seekToPercent_no_duration_witness :
    SeekToPercent (mkSamplePlayer noDurationCtx true) (mkRat 1 2) ⟨0, 0⟩
      = (false, { mkSamplePlayer noDurationCtx true with IsRunning := false }) :=
  seekToPercent_no_duration _ noDurationCtx (mkRat 1 2) ⟨0, 0⟩ rfl rfl (by decide) (by decide)

/-- Counterexample to C1 as stated: on the no-duration failure a session that
was running (decode thread active) beforehand is NOT still running
afterwards — `StopAndExtractWorker` already cleared the flag and the failure
path never restarts the thread. -/
theorem seekToPercent_no_duration_stops_running_session :
    (mkSamplePlayer noDurationCtx true).IsRunning = true ∧
    (SeekToPercent (mkSamplePlayer noDurationCtx true) (mkRat 1 2) ⟨0, 0⟩).1 = false ∧
    (SeekToPercent (mkSamplePlayer noDurationCtx true) (mkRat 1 2) ⟨0, 0⟩).2.IsRunning
      = false :=
  ⟨rfl, rfl, rfl⟩

/-- C2 (amended): after every successful `SeekToPercent` the decode thread is
running — the restart block at the end of the function respawns it whenever
the (just-cleared) running flag is false, regardless of whether the session
was running or paused when the call was made. -/
theorem seekToPercent_success_running (p : VideoPlayer) (percent : ℚ) (env : SeekEnv)
    (hs : (SeekToPercent p percent env).1 = true) :
    (SeekToPercent p percent env).2.IsRunning = true := by
  rcases hctx : p.Context with _ | ctx
  · simp [SeekToPercent, hctx] at hs
  · simp only [SeekToPercent, hctx] at hs ⊢
    split_ifs at hs ⊢ <;> simp_all [StopAndExtractWorker]

/-- Witness for `seekToPercent_success_running` at a concrete paused session. -/
theorem seekToPercent_success_running_witness :
    (SeekToPercent (mkSamplePlayer tenSecCtx false) (mkRat 1 2) ⟨1000000, 0⟩).2.IsRunning
      = true :=
  seekToPercent_success_running _ (mkRat 1 2) ⟨1000000, 0⟩ (by decide)

/-- Counterexample to C2 as stated: a session that was paused before the seek
(`IsRunning = false`) is running after the seek succeeds — the respawn is not
conditional on the pre-call running state. -/
theorem seekToPercent_resumes_paused_session :
    (mkSamplePlayer tenSecCtx false).IsRunning = false ∧
    (SeekToPercent (mkSamplePlayer tenSecCtx false) (mkRat 1 2) ⟨1000000, 0⟩).1 = true ∧
    (SeekToPercent (mkSamplePlayer tenSecCtx false) (mkRat 1 2) ⟨1000000, 0⟩).2.IsRunning
      = true :=
  ⟨rfl, rfl, rfl⟩

/-- C5: `SeekToPercent` behaves identically on `percent` and on
`clamp(percent, 0, 1)` — the argument is clamped before anything else, so a
value outside [0,1] is never by itself a reason for the call to fail. -/
theorem seekToPercent_clamp_invariant (p : VideoPlayer) (percent : ℚ) (env : SeekEnv) :
    SeekToPercent p percent env = SeekToPercent p (cClamp percent 0 1) env := by
  unfold SeekToPercent
  rw [cClamp_idem]

/-- C3 (amended): a failed `Open` on a player with no session leaves the
DecodeContext, VideoInfo and FormatConverter absent — but not necessarily
the InputStream: the `IO` member is assigned before the libav calls and is
not torn down on the later failure paths. -/
theorem open_failure_no_partial_session (p : VideoPlayer) (src : MediaSource)
    (options : VideoPlayerOptions) (env : OpenEnv)
    (hc : p.Context = none) (hv : p.videoInfo = none) (hf : p.FormatConverter = none)
    (hfail : (Open p src options env).1 = false) :
    (Open p src options env).2.Context = none ∧
    (Open p src options env).2.videoInfo = none ∧
    (Open p src options env).2.FormatConverter = none := by
  rcases hl : env.loadProps with _ | ctx0 <;>
    rcases src with fd | path <;>
    simp only [Open, openAfterIo, hl, hc, Option.isSome_none, Bool.false_eq_true,
      if_false] at hfail ⊢ <;>
    split_ifs at hfail ⊢ <;>
    simp_all

/-- A player holding no resources at all (as freshly created). -/
def emptyPlayer : VideoPlayer := ⟨none, none, none, ⟨false, 0, 1, false, false⟩, none, 0, false, 0⟩

/-- A descriptor-probe environment in which every call succeeds. -/
def sampleProbe : FdProbeEnv := ⟨true, 0, 1024, -1, 0, -1, 4096, 0, -1⟩

/-- The default option set used by the fixtures. -/
def sampleOpts : VideoPlayerOptions := ⟨false, 0, 1, true, true⟩

/-- An `Open` environment in which `avformat_open_input` fails. -/
def failingOpenEnv : OpenEnv := ⟨sampleProbe, true, 4096, true, -5, 0, none⟩

/-- Witness for `open_failure_no_partial_session`: `avformat_open_input`
fails on a fresh player. -/
theorem open_failure_no_partial_session_witness :
    (Open emptyPlayer (.fileSrc "v.mp4") sampleOpts failingOpenEnv).2.Context = none ∧
    (Open emptyPlayer (.fileSrc "v.mp4") sampleOpts failingOpenEnv).2.videoInfo = none ∧
    (Open emptyPlayer (.fileSrc "v.mp4") sampleOpts failingOpenEnv).2.FormatConverter
      = none :=
  open_failure_no_partial_session _ _ _ _ rfl rfl rfl (by decide)

/-- Counterexample to C3 as stated: on that same failing `Open` (the
`avformat_open_input` call returns an error after the stream was installed)
the call returns false, yet the player still holds an InputStream — the
claim that all four resources are absent afterwards fails for `IO`. -/
theorem open_failure_keeps_inputStream :
    (Open emptyPlayer (.fileSrc "v.mp4") sampleOpts failingOpenEnv).1 = false ∧
    (Open emptyPlayer (.fileSrc "v.mp4") sampleOpts failingOpenEnv).2.ioStream.isSome
      = true :=
  ⟨rfl, rfl⟩

/-- C6 (amended): `GetDurationMills()` and the `DurationMills` field handed to
the metadata callback are both derived from the same
`FFmpegContext::durationInSeconds`, but by different computations — the getter
truncates (`(int64_t)(d*1000)`) while `FillVideoInfo` rounds
(`round(d*1000)`): they agree only up to one millisecond.  The underlying
duration is untouched by `Pause`, `Resume` and `SeekToPercent`, so both values
are constant from `Open` to `Close`. -/
theorem durationMills_consistency (p : VideoPlayer) (ctx : FFmpegContext)
    (hc : p.Context = some ctx) (hd : 0 ≤ ctx.durationInSeconds) :
    (GetDurationMills p ≤ (FillVideoInfo ctx).DurationMills ∧
      (FillVideoInfo ctx).DurationMills ≤ GetDurationMills p + 1) ∧
    GetDurationMills (Pause p) = GetDurationMills p ∧
    (∀ env, GetDurationMills (Resume p env).2 = GetDurationMills p) ∧
    (∀ q env, GetDurationMills (SeekToPercent p q env).2 = GetDurationMills p) := by
  refine ⟨?_, ?_, ?_, ?_⟩
  · have hgap := cRoundQ_trunc_gap (ctx.durationInSeconds * 1000)
      (by positivity)
    simpa [GetDurationMills, hc, FillVideoInfo] using hgap
  · rfl
  · intro env
    rw [Resume]
    split_ifs <;> rfl
  · intro q env
    rcases hctx : p.Context with _ | ctx'
    · simp [SeekToPercent, hctx]
    · simp only [SeekToPercent, hctx]
      split_ifs <;> simp [GetDurationMills, StopAndExtractWorker, hctx]

/-- A context advertising a 2-second duration. -/
def twoSecCtx : FFmpegContext :=
  ⟨true, true, false, true, 0, -1, 2000000, 0, mkRat 1 1000, 2000, 2, 0, 30, 60, 640, 360, 0, .other⟩

/-- Witness for `durationMills_consistency` at a concrete open session. -/
theorem durationMills_consistency_witness :
    (GetDurationMills (mkSamplePlayer twoSecCtx true) ≤ (FillVideoInfo twoSecCtx).DurationMills ∧
      (FillVideoInfo twoSecCtx).DurationMills
        ≤ GetDurationMills (mkSamplePlayer twoSecCtx true) + 1) ∧
    GetDurationMills (Pause (mkSamplePlayer twoSecCtx true))
      = GetDurationMills (mkSamplePlayer twoSecCtx true) :=
  ⟨(durationMills_consistency (mkSamplePlayer twoSecCtx true) twoSecCtx rfl (by decide)).1,
   (durationMills_consistency (mkSamplePlayer twoSecCtx true) twoSecCtx rfl (by decide)).2.1⟩

/-- A context whose real duration is 1.5 milliseconds. -/
def halfMsCtx : FFmpegContext :=
  ⟨true, true, false, false, 0, -1, 1500, 0, mkRat 1 1000, 1, mkRat 3 2000, 0, 30, 1, 640, 360, 0, .other⟩

/-- An `Open` environment in which every call succeeds and stream discovery
yields `halfMsCtx`. -/
def halfMsEnv : OpenEnv := ⟨sampleProbe, true, 4096, true, 0, 0, some halfMsCtx⟩

/-- Counterexample to C6 as stated: a source whose duration is 1.5 ms
(`durationInSeconds = 3/2000`).  After a successful `Open`,
`GetDurationMills()` truncates to 1 while the metadata callback's
`DurationMills` rounds to 2 — not the same value, hence not the same
computation. -/
theorem durationMills_mismatch :
    (Open emptyPlayer (.fileSrc "v.mp4") sampleOpts halfMsEnv).1 = true ∧
    GetDurationMills (Open emptyPlayer (.fileSrc "v.mp4") sampleOpts halfMsEnv).2 = 1 ∧
    ((Open emptyPlayer (.fileSrc "v.mp4") sampleOpts halfMsEnv).2.videoInfo.map
      (fun vi => vi.DurationMills)) = some 2 := by
  have hmul : (mkRat 3 2000 : ℚ) * 1000 = mkRat 3 2 := by
    norm_num [Rat.mkRat_eq_div]
  refine ⟨rfl, ?_, ?_⟩
  · show cTruncQ ((mkRat 3 2000 : ℚ) * 1000) = 1
    rw [hmul]
    decide
  · show some (cRoundQ ((mkRat 3 2000 : ℚ) * 1000)) = some 2
    rw [hmul, cRoundQ, if_pos (by norm_num [Rat.mkRat_eq_div] : (0:ℚ) ≤ mkRat 3 2)]
    have hadd : (mkRat 3 2 : ℚ) + mkRat 1 2 = 2 := by norm_num [Rat.mkRat_eq_div]
    rw [hadd]
    decide

/-- C10: the `StartMills` option is dead: `Open` behaves identically for any
two values of it (same success flag, same position), a successful `Open`
stores position 0, and the decode-thread baseline computed by `LoopPlay` from
that position is the sentinel `-1`, resolved on the first frame to plain
`av_gettime()` — the session starts at position zero whatever `StartMills`
said. -/
theorem open_ignores_startMills (p : VideoPlayer) (src : MediaSource)
    (options : VideoPlayerOptions) (env : OpenEnv) (s : ℤ) :
    ((Open p src { options with StartMills := s } env).1 = (Open p src options env).1) ∧
    ((Open p src { options with StartMills := s } env).2.CurrentTimeMills
      = (Open p src options env).2.CurrentTimeMills) ∧
    ((Open p src options env).1 = true →
      GetPlayingMills (Open p src options env).2 = 0 ∧
      (∀ now, loopStartBaseline (GetPlayingMills (Open p src options env).2) now = -1) ∧
      (∀ now now2, firstFrameBaseline
          (loopStartBaseline (GetPlayingMills (Open p src options env).2) now)
          (GetPlayingMills (Open p src options env).2) now2 = now2)) := by
  have hpos : (Open p src options env).1 = true →
      GetPlayingMills (Open p src options env).2 = 0 := by
    intro hsucc
    rcases src with fd | path <;> rcases hl : env.loadProps with _ | ctx0 <;>
      simp only [Open, openAfterIo, hl, apply_ite Prod.fst] at hsucc <;>
      simp only [Open, openAfterIo, hl, GetPlayingMills, apply_ite Prod.snd,
        apply_ite VideoPlayer.CurrentTimeMills] <;>
      split_ifs at hsucc ⊢ <;>
      simp_all
  refine ⟨?_, ?_, fun hsucc => ⟨hpos hsucc, fun now => ?_, fun now now2 => ?_⟩⟩
  · rcases src with fd | path <;> rcases hl : env.loadProps with _ | ctx0 <;>
      simp only [Open, openAfterIo, hl, apply_ite Prod.fst]
  · rcases src with fd | path <;> rcases hl : env.loadProps with _ | ctx0 <;>
      simp only [Open, openAfterIo, hl, apply_ite Prod.snd,
        apply_ite VideoPlayer.CurrentTimeMills]
  · rw [hpos hsucc]
    rfl
  · rw [hpos hsucc]
    rfl

/-- A fresh player whose stale position field is nonzero. -/
def stalePosPlayer : VideoPlayer :=
  ⟨none, none, none, ⟨false, 0, 1, false, false⟩, none, 7, false, 0⟩

/-- Options requesting a start position of 9999 ms. -/
def startMillsOpts : VideoPlayerOptions := ⟨false, 9999, 1, true, true⟩

/-- An `Open` environment in which every call succeeds and stream discovery
yields `twoSecCtx`. -/
def twoSecEnv : OpenEnv := ⟨sampleProbe, true, 4096, true, 0, 0, some twoSecCtx⟩

/-- Witness for `open_ignores_startMills` at a successful concrete `Open` with
`StartMills = 9999`. -/
theorem open_ignores_startMills_witness :
    GetPlayingMills (Open stalePosPlayer (.fileSrc "v.mp4") startMillsOpts twoSecEnv).2 = 0 ∧
    loopStartBaseline
      (GetPlayingMills (Open stalePosPlayer (.fileSrc "v.mp4") startMillsOpts twoSecEnv).2)
      555 = -1 ∧
    firstFrameBaseline
      (loopStartBaseline
        (GetPlayingMills (Open stalePosPlayer (.fileSrc "v.mp4") startMillsOpts twoSecEnv).2)
        555)
      (GetPlayingMills (Open stalePosPlayer (.fileSrc "v.mp4") startMillsOpts twoSecEnv).2)
      787 = 787 :=
  ⟨((open_ignores_startMills stalePosPlayer (.fileSrc "v.mp4") startMillsOpts twoSecEnv 0).2.2
      rfl).1,
   ((open_ignores_startMills stalePosPlayer (.fileSrc "v.mp4") startMillsOpts twoSecEnv 0).2.2
      rfl).2.1 555,
   ((open_ignores_startMills stalePosPlayer (.fileSrc "v.mp4") startMillsOpts twoSecEnv 0).2.2
      rfl).2.2 555 787⟩

/-! ## Callback ordering around `Open` (video_player.cpp lines 408-455, 193-308)

`Open` populates the `VideoInfo` snapshot under the lock (line 409, event
`populateMetadata`), spawns the worker thread while holding the lock a second
time (line 446, event `spawnWorker`), and only afterwards — outside any lock —
invokes the metadata callback (line 451, event `infoCallback`).  The worker
runs `LoopPlay`, whose frame callbacks (`frameCallback`) are emitted on the
decode thread with no synchronization against the caller's `infoCallback`.
The admissible event interleavings of one successful `Open` (with both
callbacks installed) are therefore: the caller's three events in program
order, with the worker's frame callbacks falling anywhere after
`spawnWorker`. -/
inductive OpenEvent where
  | populateMetadata
  | spawnWorker
  | infoCallback
  | frameCallback
deriving DecidableEq

/-- The interleaving in which `a` frame callbacks precede the metadata
callback and `b` follow it. -/
def openCallbackTrace (a b : ℕ) : List OpenEvent :=
  [.populateMetadata, .spawnWorker] ++ List.replicate a .frameCallback
    ++ [.infoCallback] ++ List.replicate b .frameCallback

/-- A trace is admissible for one successful `Open` iff it is
`openCallbackTrace a b` for some split `a`, `b` of the worker's frames. -/
def IsOpenCallbackTrace (t : List OpenEvent) : Prop := ∃ a b, t = openCallbackTrace a b

/-- Index of the first occurrence of `e` in `t` (`t.length` when absent). -/
def firstIndex (t : List OpenEvent) (e : OpenEvent) : ℕ :=
  t.findIdx (fun x => decide (x = e))

theorem countP_replicate_frame (n : ℕ) :
    (List.replicate n OpenEvent.frameCallback).countP
      (fun x => decide (x = OpenEvent.infoCallback)) = 0 := by
  induction n with
  | zero => rfl
  | succ n ih => simp [List.replicate_succ, List.countP_cons, ih]

theorem findIdx_replicate_frame_append (a : ℕ) (l : List OpenEvent) :
    (List.replicate a OpenEvent.frameCallback ++ l).findIdx
        (fun x => decide (x = OpenEvent.infoCallback))
      = a + l.findIdx (fun x => decide (x = OpenEvent.infoCallback)) := by
  induction a with
  | zero => simp
  | succ a ih => simp [List.replicate_succ, List.findIdx_cons, ih]; omega

/-- C4 (amended): in every admissible interleaving of a successful `Open`,
the metadata callback fires exactly once, and only after the `VideoInfo`
snapshot has been populated — but nothing orders it before the decode
thread's first frame callback, since the thread is spawned before the
callback is invoked. -/
theorem metadata_callback_once_after_populate (t : List OpenEvent)
    (ht : IsOpenCallbackTrace t) :
    t.countP (fun x => decide (x = OpenEvent.infoCallback)) = 1 ∧
    firstIndex t .populateMetadata < firstIndex t .infoCallback := by
  obtain ⟨a, b, rfl⟩ := ht
  constructor
  · simp [openCallbackTrace, List.countP_append, List.countP_cons, countP_replicate_frame]
  · show firstIndex (openCallbackTrace a b) .populateMetadata
      < firstIndex (openCallbackTrace a b) .infoCallback
    have h1 : firstIndex (openCallbackTrace a b) .populateMetadata = 0 := by
      simp [openCallbackTrace, firstIndex, List.findIdx_cons]
    have h2 : firstIndex (openCallbackTrace a b) .infoCallback = a + 2 := by
      simp only [openCallbackTrace, firstIndex, List.cons_append, List.nil_append,
        List.findIdx_cons]
      simp [findIdx_replicate_frame_append, List.findIdx_cons]
    omega

/-- Witness for `metadata_callback_once_after_populate` on a concrete trace. -/
theorem metadata_callback_once_after_populate_witness :
    (openCallbackTrace 0 1).countP (fun x => decide (x = OpenEvent.infoCallback)) = 1 ∧
    firstIndex (openCallbackTrace 0 1) .populateMetadata
      < firstIndex (openCallbackTrace 0 1) .infoCallback :=
  metadata_callback_once_after_populate (openCallbackTrace 0 1) ⟨0, 1, rfl⟩

/-- Counterexample to C4 as stated: the admissible interleaving in which the
worker delivers its first frame before the caller reaches the metadata
callback — `Open` spawns the decode thread before invoking the callback, so
the callback's invocation does not precede the first frame callback. -/
theorem frame_callback_may_precede_metadata_callback :
    IsOpenCallbackTrace (openCallbackTrace 1 0) ∧
    OpenEvent.frameCallback ∈ openCallbackTrace 1 0 ∧
    ¬ firstIndex (openCallbackTrace 1 0) .infoCallback
        < firstIndex (openCallbackTrace 1 0) .frameCallback :=
  ⟨⟨1, 0, rfl⟩, by decide, by decide⟩
